import Mathlib

/-!
Verification of the weather-advisor application against its specification.

The embedding below follows the Python sources:
* `weather_utils.py` — `health_advice`, the threshold-based advice mapping;
* `send_alerts.py` — the daily alerts job (`send_sms`, `send_email`, `main`);
* `app.py` — the signup flow (Send OTP / Verify & Create Account handlers)
  and the preferred-city upsert.

Temperatures and humidities are embedded as rationals (the Python code reads
JSON numbers and only compares them against decimal constants).  Each advice
string appended by `health_advice` is represented by one constructor of the
`Tip` type, named after the string's content.
-/

/-- The advice strings `health_advice` can append, one constructor per string
appearing in `weather_utils.py` lines 35-72. -/
inductive Tip where
  | extremeHeat      -- "🔥 Extreme heat! Stay indoors during peak hours..."
  | wideBrimHat      -- "🧢 Wear a wide-brim hat and light, breathable clothing."
  | veryHot          -- "☀️ Very hot: stay hydrated, avoid direct sunlight..."
  | lightClothing    -- "👕 Wear light-colored, loose clothing."
  | hotWeather       -- "🌤 Hot weather: limit outdoor activity during midday..."
  | moderateWeather  -- "🌤 Moderate weather: normal precautions, stay hydrated."
  | mildCold         -- "🧥 Mild cold: wear a light jacket, keep skin moisturized."
  | coldWeather      -- "❄️ Cold weather: wear warm clothing, cover extremities..."
  | glovesScarf      -- "🧤 Gloves, scarf, and hat recommended."
  | highHumidity     -- "💧 High humidity: stay hydrated, risk of fungal..."
  | lowHumidity      -- "💨 Low humidity: apply moisturizer, drink plenty of water..."
  | airPollution     -- "😷 Air pollution detected: wear N95 mask outdoors..."
  | rainTip          -- "☔ Carry an umbrella and wear waterproof shoes/clothes."
  | snowTip          -- "❄️ Snowy conditions: wear warm waterproof clothing..."
  | fogTip           -- "🌫 Foggy weather: drive carefully, use lights if commuting."
  | stormTip         -- "⚡ Thunderstorm: stay indoors, avoid using electrical..."
  | windTip          -- "💨 Strong wind: secure loose objects..."
  | allGood          -- "✅ Weather looks good! Maintain your usual health routine."
deriving DecidableEq, Repr

/-- Substring search on character lists (Python's `pat in s`). -/
def containsSub (s pat : List Char) : Bool :=
  match s with
  | [] => pat.isEmpty
  | c :: rest => List.isPrefixOf pat (c :: rest) || containsSub rest pat

/-- Python's `condition.lower()`: lowercase character by character
(the character-level function `String.toLower` maps over the string). -/
def lowerStr (s : String) : List Char :=
  s.toList.map Char.toLower

/-- Python's `pat in condition.lower()`. -/
def strContainsLower (s pat : String) : Bool :=
  containsSub (lowerStr s) pat.toList

/-- The temperature `if/elif` ladder of `health_advice`
(`weather_utils.py` lines 34-48). -/
def tempAdvice (t : Rat) : List Tip :=
  if 40 ≤ t then [Tip.extremeHeat, Tip.wideBrimHat]
  else if 35 ≤ t ∧ t < 40 then [Tip.veryHot, Tip.lightClothing]
  else if 30 ≤ t ∧ t < 35 then [Tip.hotWeather]
  else if 20 ≤ t ∧ t < 30 then [Tip.moderateWeather]
  else if 10 ≤ t ∧ t < 20 then [Tip.mildCold]
  else if t < 10 then [Tip.coldWeather, Tip.glovesScarf]
  else []

/-- The humidity `if/elif` of `health_advice`
(`weather_utils.py` lines 51-54). -/
def humAdvice (h : Rat) : List Tip :=
  if 80 < h then [Tip.highHumidity]
  else if h < 30 then [Tip.lowHumidity]
  else []

/-- The condition-keyword checks of `health_advice`
(`weather_utils.py` lines 57-69), applied to `condition.lower()`. -/
def condAdvice (condition : String) : List Tip :=
  (if strContainsLower condition "smoke" || strContainsLower condition "dust"
      || strContainsLower condition "haze" then [Tip.airPollution] else []) ++
  (if strContainsLower condition "rain" then [Tip.rainTip] else []) ++
  (if strContainsLower condition "snow" then [Tip.snowTip] else []) ++
  (if strContainsLower condition "fog" then [Tip.fogTip] else []) ++
  (if strContainsLower condition "thunderstorm"
      || strContainsLower condition "storm" then [Tip.stormTip] else []) ++
  (if strContainsLower condition "wind" then [Tip.windTip] else [])

/-- `health_advice(temp, humidity, condition)` from `weather_utils.py`
lines 27-74: the list accumulated by the three blocks above, with the
fallback tip appended when that list is empty (lines 71-72). -/
def health_advice (t h : Rat) (condition : String) : List Tip :=
  if tempAdvice t ++ humAdvice h ++ condAdvice condition = [] then [Tip.allGood]
  else tempAdvice t ++ humAdvice h ++ condAdvice condition

/-- A tip is heat-related when its text warns about heat or hot weather. -/
def isHeatRelated : Tip → Bool
  | Tip.extremeHeat => true
  | Tip.veryHot => true
  | Tip.hotWeather => true
  | _ => false

/-- A tip is cold-related when its text warns about cold weather. -/
def isColdRelated : Tip → Bool
  | Tip.coldWeather => true
  | Tip.glovesScarf => true
  | Tip.mildCold => true
  | _ => false

/-- A tip is neutral when it recommends only the usual routine. -/
def isNeutral : Tip → Bool
  | Tip.moderateWeather => true
  | Tip.allGood => true
  | _ => false

/-!
Embedding of `send_alerts.py`.
-/

/-- The weather record returned by `get_weather`
(`weather_utils.py` line 20). -/
structure Weather where
  temp : Rat
  humidity : Rat
  condition : String

/-- A row of the query in `send_alerts.py` lines 125-130:
`users` joined with `preferences`, restricted to `verified = 1`. -/
structure AlertUser where
  uid : Nat
  name : Option String
  email : Option String
  phone : Option String
  verified : Bool
  city : Option String

/-- `send_sms` (`send_alerts.py` lines 19-30): `False` when the Twilio
credentials are absent; otherwise `True` exactly when the provider call
succeeds (`providerOk`); an exception is caught and yields `False`. -/
def send_sms (credsPresent providerOk : Bool) : Bool :=
  if ¬ credsPresent then false
  else providerOk

/-- `send_email` (`send_alerts.py` lines 32-61): `False` when the SendGrid
key is absent; otherwise the provider response is `none` when the request
raised an exception (caught, returns `False`) or `some code`, accepted only
for status 200 or 202. -/
def send_email (keyPresent : Bool) (resp : Option Nat) : Bool :=
  if ¬ keyPresent then false
  else match resp with
    | none => false
    | some code => code = 200 || code = 202

/-- The per-user dispatch decision of `main` (`send_alerts.py` lines
134-160): a user is skipped when the saved city is falsy (`if not city`)
or the weather fetch returns nothing (`if not w`); otherwise an SMS is
attempted when a phone is stored and an email when an email is stored.
No stored previous reading is consulted — none exists in the schema. -/
def attemptsAlert (u : AlertUser) (w : Option Weather) : Bool :=
  match u.city with
  | none => false
  | some ct =>
    if ct = "" then false
    else match w with
      | none => false
      | some _ => u.phone.isSome || u.email.isSome

/-- `sent_any` for one user of `main` (`send_alerts.py` lines 145-160):
whether at least one channel reported success. -/
def processUser (u : AlertUser) (w : Option Weather)
    (credsPresent keyPresent providerOk : Bool) (resp : Option Nat) : Bool :=
  if attemptsAlert u w then
    (if u.phone.isSome then send_sms credsPresent providerOk else false) ||
    (if u.email.isSome then send_email keyPresent resp else false)
  else false

/-- A row of the `preferences` table (`app.py` lines 38-45); the
autoincrement id is irrelevant to the claims and omitted. -/
structure PrefRow where
  userId : Nat
  city : String
deriving DecidableEq, Repr

/-- The database visible to the alerts job. -/
structure AlertDB where
  users : List AlertUser
  prefs : List PrefRow

/-- `main` of `send_alerts.py` lines 119-170: reads the verified users,
produces the per-user delivery outcomes, and performs no database write
(the routine only executes the SELECT of lines 125-130), so the stored
tables are returned unchanged. -/
def runAlertsJob (db : AlertDB) (wOf : Nat → Option Weather)
    (credsPresent keyPresent : Bool) (providerOkOf : Nat → Bool)
    (respOf : Nat → Option Nat) : AlertDB × List Bool :=
  (db, (db.users.filter (fun u => u.verified)).map
    (fun u => processUser u (wOf u.uid) credsPresent keyPresent
      (providerOkOf u.uid) (respOf u.uid)))

/-!
Embedding of the signup flow of `app.py` (lines 166-231) and the
preferred-city upsert (lines 138-143).
-/

/-- Python's `s.strip()`. -/
def pyStrip (s : String) : String :=
  String.mk (((s.toList.dropWhile Char.isWhitespace).reverse.dropWhile
    Char.isWhitespace).reverse)

/-- A stored `users` row (`app.py` lines 25-37); `signup_date` and
`last_login` carry no logic and are omitted. -/
structure UserRec where
  name : String
  email : String
  phone : String
  address : String
  pwHash : String
  verified : Bool
deriving DecidableEq

/-- A signup form submission (`app.py` lines 168-172). -/
structure Application where
  name : String
  email : String
  phone : String
  address : String
  pw : String

/-- The basic checks of the Send OTP handler (`app.py` line 176):
`all([name.strip(), email.strip(), phone.strip(), pw.strip()])`. -/
def wellFormed (a : Application) : Bool :=
  pyStrip a.name ≠ "" ∧ pyStrip a.email ≠ "" ∧ pyStrip a.phone ≠ ""
    ∧ pyStrip a.pw ≠ ""

/-- The duplicate check of the Send OTP handler (`app.py` lines 179-180):
`SELECT 1 FROM users WHERE email=? OR phone=?` on the stripped values. -/
def isDuplicate (db : List UserRec) (a : Application) : Bool :=
  db.any (fun u => u.email = pyStrip a.email || u.phone = pyStrip a.phone)

/-- The row inserted by the Verify & Create Account handler
(`app.py` lines 211-216): stripped fields, hashed raw password,
`verified = 1`. -/
def mkUser (a : Application) (hash : String → String) : UserRec :=
  ⟨pyStrip a.name, pyStrip a.email, pyStrip a.phone, pyStrip a.address,
    hash a.pw, true⟩

/-- Outcome of a signup attempt. -/
inductive SignupResult where
  | missingFields   -- warning of app.py line 177
  | duplicate       -- error of app.py line 181
  | otpSendFailed   -- send_verify_code returned False (line 184)
  | otpRejected     -- check_verify_code returned False (line 223)
  | created         -- row inserted, lines 211-217
deriving DecidableEq, Repr

/-- The signup pipeline (`app.py` lines 174-221): Send OTP stage
(field check, duplicate check, OTP dispatch) followed by the Verify &
Create Account stage (OTP check, insert).  `otpSendOk` is the result of
`send_verify_code`, `otpValid` the result of `check_verify_code`, and
`hash` stands for `bcrypt.hashpw`. -/
def signup (db : List UserRec) (a : Application)
    (otpSendOk otpValid : Bool) (hash : String → String) :
    List UserRec × SignupResult :=
  if ¬ wellFormed a then (db, SignupResult.missingFields)
  else if isDuplicate db a then (db, SignupResult.duplicate)
  else if ¬ otpSendOk then (db, SignupResult.otpSendFailed)
  else if ¬ otpValid then (db, SignupResult.otpRejected)
  else (db ++ [mkUser a hash], SignupResult.created)

/-- The preferred-city upsert (`app.py` lines 138-143):
`SELECT 1 FROM preferences WHERE user_id=?`; when a row exists,
`UPDATE preferences SET city=? WHERE user_id=?`, otherwise
`INSERT INTO preferences(user_id, city) VALUES (?,?)`. -/
def savePreferredCity (prefs : List PrefRow) (uid : Nat) (city : String) :
    List PrefRow :=
  if prefs.any (fun p => p.userId = uid) then
    prefs.map (fun p => if p.userId = uid then ⟨uid, city⟩ else p)
  else prefs ++ [⟨uid, city⟩]

/-- Number of `preferences` rows stored for a user. -/
def countFor (u : Nat) (prefs : List PrefRow) : Nat :=
  (prefs.filter (fun p => p.userId = u)).length

/-- The city of the first `preferences` row stored for a user. -/
def cityOf (u : Nat) (prefs : List PrefRow) : Option String :=
  (prefs.find? (fun p => p.userId = u)).map (fun p => p.city)

/-!
Helper lemmas about `health_advice`.
-/

theorem mem_health_advice_of_mem_parts {x : Tip} {t h : Rat} {c : String}
    (hx : x ∈ tempAdvice t ++ humAdvice h ++ condAdvice c) :
    x ∈ health_advice t h c := by
  unfold health_advice
  rw [if_neg (List.ne_nil_of_mem hx)]
  exact hx

theorem any_health_advice_of_any_parts {p : Tip → Bool} {t h : Rat}
    {c : String}
    (hp : (tempAdvice t ++ humAdvice h ++ condAdvice c).any p = true) :
    (health_advice t h c).any p = true := by
  rw [List.any_eq_true] at hp ⊢
  obtain ⟨x, hx, hpx⟩ := hp
  exact ⟨x, mem_health_advice_of_mem_parts hx, hpx⟩

theorem any_health_advice_of_any_tempAdvice {p : Tip → Bool} {t h : Rat}
    {c : String} (hp : (tempAdvice t).any p = true) :
    (health_advice t h c).any p = true := by
  apply any_health_advice_of_any_parts
  rw [List.any_append, List.any_append, hp]
  simp

theorem tempAdvice_heat {t : Rat} (ht : 35 ≤ t) :
    (tempAdvice t).any isHeatRelated = true := by
  unfold tempAdvice
  by_cases h40 : (40 : Rat) ≤ t
  · rw [if_pos h40]; rfl
  · rw [if_neg h40, if_pos ⟨ht, lt_of_not_le h40⟩]; rfl

theorem tempAdvice_cold {t : Rat} (ht : t ≤ 10) :
    (tempAdvice t).any isColdRelated = true := by
  unfold tempAdvice
  have h40 : ¬ (40 : Rat) ≤ t := by linarith
  have h35 : ¬ (35 ≤ t ∧ t < 40) := fun hc => by linarith [hc.1]
  have h30 : ¬ (30 ≤ t ∧ t < 35) := fun hc => by linarith [hc.1]
  have h20 : ¬ (20 ≤ t ∧ t < 30) := fun hc => by linarith [hc.1]
  rw [if_neg h40, if_neg h35, if_neg h30, if_neg h20]
  by_cases h10 : (10 : Rat) ≤ t
  · rw [if_pos ⟨h10, by linarith⟩]; rfl
  · rw [if_neg (fun hc => h10 hc.1), if_pos (lt_of_not_le h10)]; rfl

theorem tempAdvice_neutralBand {t : Rat} (h1 : 20 ≤ t) (h2 : t < 30) :
    tempAdvice t = [Tip.moderateWeather] := by
  unfold tempAdvice
  have h40 : ¬ (40 : Rat) ≤ t := by linarith
  have h35 : ¬ (35 ≤ t ∧ t < 40) := fun hc => by linarith [hc.1]
  have h30 : ¬ (30 ≤ t ∧ t < 35) := fun hc => by linarith [hc.1]
  rw [if_neg h40, if_neg h35, if_neg h30, if_pos ⟨h1, h2⟩]

theorem humAdvice_high {h : Rat} (hh : 80 < h) :
    humAdvice h = [Tip.highHumidity] := by
  unfold humAdvice
  rw [if_pos hh]

theorem humAdvice_low {h : Rat} (hh : h < 30) :
    humAdvice h = [Tip.lowHumidity] := by
  unfold humAdvice
  rw [if_neg (by linarith), if_pos hh]

theorem humAdvice_mid {h : Rat} (h1 : ¬ 80 < h) (h2 : ¬ h < 30) :
    humAdvice h = [] := by
  unfold humAdvice
  rw [if_neg h1, if_neg h2]

/-- C10: for every input, `health_advice` returns a non-empty list — when
no branch contributed an entry, the fallback tip is appended. -/
theorem c10_health_advice_nonempty (t h : Rat) (c : String) :
    health_advice t h c ≠ [] := by
  unfold health_advice
  by_cases he : tempAdvice t ++ humAdvice h ++ condAdvice c = []
  · rw [if_pos he]; exact List.cons_ne_nil _ _
  · rw [if_neg he]; exact he

/-- C9: `health_advice` is deterministic — equal temperature, humidity and
condition inputs produce the identical list of tips. -/
theorem c9_health_advice_deterministic (t1 h1 t2 h2 : Rat) (c1 c2 : String)
    (ht : t1 = t2) (hh : h1 = h2) (hc : c1 = c2) :
    health_advice t1 h1 c1 = health_advice t2 h2 c2 := by
  rw [ht, hh, hc]

theorem c9_witness :
    health_advice 20 50 "clear" = health_advice 20 50 "clear" :=
  c9_health_advice_deterministic 20 50 20 50 "clear" "clear" rfl rfl rfl

/-- C5: on temperature 36, humidity 85, condition "light rain", the advice
list includes a heat tip (`veryHot` is heat-related), the high-humidity tip
and the rain tip. -/
theorem c5_example_heat_humidity_rain :
    (health_advice 36 85 "light rain").any isHeatRelated = true ∧
    Tip.highHumidity ∈ health_advice 36 85 "light rain" ∧
    Tip.rainTip ∈ health_advice 36 85 "light rain" := by decide

/-- C2 fails as stated: at temperature 32 (neither ≥ 35 nor ≤ 10) the
advice list is `[hotWeather]`, which contains no neutral entry. -/
theorem c2_counterexample :
    ¬ ((32 : Rat) ≥ 35) ∧ ¬ ((32 : Rat) ≤ 10) ∧
    (health_advice 32 50 "clear").any isNeutral = false := by decide

/-- C2 amended: temperature ≥ 35 yields a heat-related entry and ≤ 10 a
cold-related entry, but a neutral entry is only guaranteed on the moderate
band 20 ≤ t < 30; the bands [10, 20) and [30, 35) yield a mild-cold
resp. hot-weather entry instead. -/
theorem c2_amended_temperature_bands (t h : Rat) (c : String) :
    (35 ≤ t → (health_advice t h c).any isHeatRelated = true) ∧
    (t ≤ 10 → (health_advice t h c).any isColdRelated = true) ∧
    (20 ≤ t → t < 30 → (health_advice t h c).any isNeutral = true) := by
  refine ⟨fun ht => ?_, fun ht => ?_, fun h1 h2 => ?_⟩
  · exact any_health_advice_of_any_tempAdvice (tempAdvice_heat ht)
  · exact any_health_advice_of_any_tempAdvice (tempAdvice_cold ht)
  · apply any_health_advice_of_any_tempAdvice
    rw [tempAdvice_neutralBand h1 h2]; rfl

theorem c2_witness :
    ((35 : Rat) ≤ 36 ∧
      (health_advice 36 50 "clear").any isHeatRelated = true) ∧
    ((5 : Rat) ≤ 10 ∧
      (health_advice 5 50 "clear").any isColdRelated = true) ∧
    ((20 : Rat) ≤ 25 ∧ (25 : Rat) < 30 ∧
      (health_advice 25 50 "clear").any isNeutral = true) :=
  ⟨⟨by norm_num, (c2_amended_temperature_bands 36 50 "clear").1 (by norm_num)⟩,
   ⟨by norm_num, (c2_amended_temperature_bands 5 50 "clear").2.1 (by norm_num)⟩,
   ⟨by norm_num, by norm_num,
     (c2_amended_temperature_bands 25 50 "clear").2.2 (by norm_num) (by norm_num)⟩⟩

/-- C3 fails as stated: at temperature 25, humidity 50, condition "clear",
no heat, cold, humidity or condition threshold is crossed, yet the result
is not the empty list. -/
theorem c3_counterexample :
    (20 : Rat) ≤ 25 ∧ (25 : Rat) < 30 ∧ ¬ ((80 : Rat) < 50) ∧
    ¬ ((50 : Rat) < 30) ∧ condAdvice "clear" = [] ∧
    health_advice 25 50 "clear" ≠ [] := by decide

/-- C3 amended: on inputs crossing no threshold (temperature in the
moderate band, humidity in [30, 80], no condition keyword), `health_advice`
returns the single neutral moderate-weather entry — never the empty list. -/
theorem c3_amended_no_threshold (t h : Rat) (c : String)
    (h1 : 20 ≤ t) (h2 : t < 30) (h3 : ¬ 80 < h) (h4 : ¬ h < 30)
    (h5 : condAdvice c = []) :
    health_advice t h c = [Tip.moderateWeather] := by
  unfold health_advice
  rw [tempAdvice_neutralBand h1 h2, humAdvice_mid h3 h4, h5]
  decide

theorem c3_witness :
    (20 : Rat) ≤ 25 ∧ (25 : Rat) < 30 ∧ ¬ ((80 : Rat) < 50) ∧
    ¬ ((50 : Rat) < 30) ∧ condAdvice "clear" = [] ∧
    health_advice 25 50 "clear" = [Tip.moderateWeather] :=
  ⟨by norm_num, by norm_num, by norm_num, by norm_num, by decide,
    c3_amended_no_threshold 25 50 "clear" (by norm_num) (by norm_num)
      (by norm_num) (by norm_num) (by decide)⟩

/-- C4: humidity > 80 puts the high-humidity tip in the advice list and
humidity < 30 the dry-air tip, for every temperature and condition. -/
theorem c4_humidity_tips (t h : Rat) (c : String) :
    (80 < h → Tip.highHumidity ∈ health_advice t h c) ∧
    (h < 30 → Tip.lowHumidity ∈ health_advice t h c) := by
  constructor
  · intro hh
    apply mem_health_advice_of_mem_parts
    apply List.mem_append_left
    apply List.mem_append_right
    rw [humAdvice_high hh]
    simp
  · intro hh
    apply mem_health_advice_of_mem_parts
    apply List.mem_append_left
    apply List.mem_append_right
    rw [humAdvice_low hh]
    simp

theorem c4_witness :
    ((80 : Rat) < 85 ∧ Tip.highHumidity ∈ health_advice 20 85 "clear") ∧
    ((20 : Rat) < 30 ∧ Tip.lowHumidity ∈ health_advice 20 20 "clear") :=
  ⟨⟨by norm_num, (c4_humidity_tips 20 85 "clear").1 (by norm_num)⟩,
   ⟨by norm_num, (c4_humidity_tips 20 20 "clear").2 (by norm_num)⟩⟩

theorem c10_witness : health_advice 25 50 "clear" ≠ [] :=
  c10_health_advice_nonempty 25 50 "clear"

/-- C1 fails as stated: `main` of `send_alerts.py` consults no previous
readings (none are stored).  For a verified user whose previous readings
(20 °C, 50 %) equal the current ones — both deltas below the thresholds —
an alert is still dispatched. -/
theorem c1_counterexample :
    |((20 : Rat) - 20)| < 2 ∧ |((50 : Rat) - 50)| < 10 ∧
    attemptsAlert ⟨1, some "A", some "a@b.c", none, true, some "Delhi"⟩
      (some ⟨20, 50, "clear"⟩) = true :=
  ⟨by norm_num, by norm_num, rfl⟩

/-- C1 amended: the daily job attempts a notification exactly when the
user row has a non-empty saved city, the weather fetch succeeded, and at
least one contact channel (phone or email) is stored — independent of any
previous readings, which do not exist in the schema. -/
theorem c1_amended_unconditional (u : AlertUser) (w : Option Weather) :
    attemptsAlert u w = true ↔
      (∃ s, u.city = some s ∧ s ≠ "") ∧ w.isSome = true ∧
        (u.phone.isSome = true ∨ u.email.isSome = true) := by
  cases hc : u.city with
  | none => simp [attemptsAlert, hc]
  | some s =>
    by_cases hs : s = ""
    · simp [attemptsAlert, hc, hs]
    · cases hw : w with
      | none => simp [attemptsAlert, hc, hs, hw]
      | some wv => simp [attemptsAlert, hc, hs, hw]

theorem c1_witness :
    attemptsAlert ⟨2, none, none, some "+1", true, some "Pune"⟩
      (some ⟨30, 40, "haze"⟩) = true :=
  (c1_amended_unconditional _ _).mpr ⟨⟨"Pune", rfl, by decide⟩, rfl, Or.inl rfl⟩

/-- C6 fails as stated: a well-formed, non-duplicate application whose OTP
verification fails is rejected and creates no user row, so duplicate
email/phone is not the only validated precondition. -/
theorem c6_counterexample :
    wellFormed ⟨"A", "a@b.c", "+1", "", "pw"⟩ = true ∧
    isDuplicate [] ⟨"A", "a@b.c", "+1", "", "pw"⟩ = false ∧
    signup [] ⟨"A", "a@b.c", "+1", "", "pw"⟩ true false id
      = ([], SignupResult.otpRejected) := by decide

/-- C6 amended: a duplicate email or phone is always rejected; a signup
creates a user row exactly when the required fields are non-empty, the
email/phone is non-duplicate, the OTP dispatch succeeds and the OTP code
verifies — and then it appends exactly one row, otherwise the table is
unchanged. -/
theorem c6_amended_signup (db : List UserRec) (a : Application)
    (so ov : Bool) (hash : String → String) :
    (isDuplicate db a = true →
      (signup db a so ov hash).2 ≠ SignupResult.created) ∧
    ((signup db a so ov hash).2 = SignupResult.created ↔
      wellFormed a = true ∧ isDuplicate db a = false ∧
        so = true ∧ ov = true) ∧
    (signup db a so ov hash).1 =
      (if (signup db a so ov hash).2 = SignupResult.created
        then db ++ [mkUser a hash] else db) := by
  by_cases hwf : wellFormed a = true <;>
  by_cases hdup : isDuplicate db a = true <;>
  cases so <;> cases ov <;>
  simp [signup, hwf, hdup, Bool.not_eq_true]

theorem c6_witness :
    (isDuplicate [⟨"A", "a@b.c", "+1", "", "pw", true⟩]
        ⟨"B", "a@b.c", "+2", "", "pw"⟩ = true ∧
      (signup [⟨"A", "a@b.c", "+1", "", "pw", true⟩]
        ⟨"B", "a@b.c", "+2", "", "pw"⟩ true true id).2
          ≠ SignupResult.created) ∧
    (signup [] ⟨" A ", "a@b.c", "+1", "", "pw"⟩ true true id).2
      = SignupResult.created :=
  ⟨⟨by decide, (c6_amended_signup _ _ _ _ _).1 (by decide)⟩,
    (c6_amended_signup [] ⟨" A ", "a@b.c", "+1", "", "pw"⟩ true true id).2.1.mpr
      ⟨by decide, by decide, rfl, rfl⟩⟩

/-- C7: a provider exception (response `none`) or a non-success status
makes `send_email` return `False`, a caught SMS exception makes `send_sms`
return `False`, and the alerts job leaves the stored preferences of every
user unchanged (it performs no database write). -/
theorem c7_provider_failures (creds key : Bool) (code : Nat)
    (db : AlertDB) (wOf : Nat → Option Weather) (pOf : Nat → Bool)
    (rOf : Nat → Option Nat) (hcode : code ≠ 200 ∧ code ≠ 202) :
    send_email key none = false ∧
    send_email key (some code) = false ∧
    send_sms creds false = false ∧
    (runAlertsJob db wOf creds key pOf rOf).1.prefs = db.prefs := by
  refine ⟨?_, ?_, ?_, rfl⟩
  · cases key <;> simp [send_email]
  · cases key <;> simp [send_email, hcode.1, hcode.2]
  · cases creds <;> simp [send_sms]

theorem c7_witness :
    ((500 : Nat) ≠ 200 ∧ (500 : Nat) ≠ 202) ∧
    send_email true (some 500) = false ∧
    send_sms true false = false :=
  ⟨by decide,
    (c7_provider_failures true true 500 ⟨[], []⟩ (fun _ => none)
      (fun _ => false) (fun _ => none) (by decide)).2.1,
    (c7_provider_failures true true 500 ⟨[], []⟩ (fun _ => none)
      (fun _ => false) (fun _ => none) (by decide)).2.2.1⟩

/-!
Helper lemmas about the preferences upsert.
-/

theorem countFor_cons (u : Nat) (p : PrefRow) (ps : List PrefRow) :
    countFor u (p :: ps) =
      countFor u ps + (if p.userId = u then 1 else 0) := by
  by_cases h : p.userId = u
  · simp [countFor, List.filter_cons, h]
  · simp [countFor, List.filter_cons, h]

theorem countFor_append_single (u : Nat) (ps : List PrefRow) (x : PrefRow) :
    countFor u (ps ++ [x]) =
      countFor u ps + (if x.userId = u then 1 else 0) := by
  by_cases h : x.userId = u
  · simp [countFor, List.filter_append, List.filter_cons, h]
  · simp [countFor, List.filter_append, List.filter_cons, h]

theorem countFor_map_update (u uid : Nat) (city : String)
    (prefs : List PrefRow) :
    countFor u (prefs.map
      (fun p => if p.userId = uid then ⟨uid, city⟩ else p)) =
      countFor u prefs := by
  induction prefs with
  | nil => rfl
  | cons p ps ih =>
    rw [List.map_cons, countFor_cons, countFor_cons, ih]
    by_cases hp : p.userId = uid
    · simp [hp]
    · simp [hp]

theorem any_userId_iff_countFor (prefs : List PrefRow) (uid : Nat) :
    prefs.any (fun p => p.userId = uid) = true ↔ 1 ≤ countFor uid prefs := by
  rw [List.any_eq_true]
  constructor
  · rintro ⟨p, hp, hpe⟩
    have hmem : p ∈ prefs.filter (fun p => p.userId = uid) :=
      List.mem_filter.mpr ⟨hp, hpe⟩
    exact List.length_pos.mpr (List.ne_nil_of_mem hmem)
  · intro h1
    obtain ⟨p, hp⟩ := List.exists_mem_of_length_pos h1
    have := List.mem_filter.mp hp
    exact ⟨p, this.1, this.2⟩

theorem cityOf_map_update (uid : Nat) (city : String) (prefs : List PrefRow)
    (hmem : prefs.any (fun p => p.userId = uid) = true) :
    cityOf uid (prefs.map
      (fun p => if p.userId = uid then ⟨uid, city⟩ else p)) = some city := by
  induction prefs with
  | nil => simp at hmem
  | cons p ps ih =>
    by_cases hp : p.userId = uid
    · rw [List.map_cons, if_pos hp]
      unfold cityOf
      rw [List.find?_cons_of_pos _ (by simp)]
      rfl
    · rw [List.any_cons] at hmem
      simp only [hp, decide_False, Bool.false_or] at hmem
      rw [List.map_cons, if_neg hp]
      unfold cityOf
      rw [List.find?_cons_of_neg _ (by simp [hp])]
      exact ih hmem

/-- C8: under the invariant that the preferences table holds at most one
row per user, the upsert preserves the invariant; the first save for a
user appends one row, and every later save rewrites that row's city in
place (same table length, last write wins). -/
theorem c8_pref_upsert (prefs : List PrefRow) (uid : Nat) (city : String)
    (hinv : ∀ u, countFor u prefs ≤ 1) :
    (∀ u, countFor u (savePreferredCity prefs uid city) ≤ 1) ∧
    (countFor uid prefs = 0 →
      savePreferredCity prefs uid city = prefs ++ [⟨uid, city⟩]) ∧
    (1 ≤ countFor uid prefs →
      (savePreferredCity prefs uid city).length = prefs.length ∧
      cityOf uid (savePreferredCity prefs uid city) = some city) := by
  by_cases hany : prefs.any (fun p => p.userId = uid) = true
  · have hcount : 1 ≤ countFor uid prefs :=
      (any_userId_iff_countFor prefs uid).mp hany
    refine ⟨?_, fun h0 => by omega, fun _ => ?_⟩
    · intro u
      rw [savePreferredCity, if_pos hany, countFor_map_update]
      exact hinv u
    · rw [savePreferredCity, if_pos hany]
      exact ⟨List.length_map _ _, cityOf_map_update uid city prefs hany⟩
  · have h1 : ¬ 1 ≤ countFor uid prefs :=
      fun hl => hany ((any_userId_iff_countFor prefs uid).mpr hl)
    refine ⟨?_, fun _ => ?_, fun hc => absurd hc h1⟩
    · intro u
      rw [savePreferredCity, if_neg hany, countFor_append_single]
      by_cases hu : uid = u
      · subst hu
        have hc0 : countFor uid prefs = 0 := by omega
        simp [hc0]
      · simp [hu]
        have := hinv u
        omega
    · rw [savePreferredCity, if_neg hany]

theorem c8_witness :
    1 ≤ countFor 7 [⟨7, "Pune"⟩] ∧
    cityOf 7 (savePreferredCity [⟨7, "Pune"⟩] 7 "Delhi") = some "Delhi" :=
  ⟨by decide,
    ((c8_pref_upsert [⟨7, "Pune"⟩] 7 "Delhi"
      (by
        intro u
        by_cases h : (7 : Nat) = u
        · simp [countFor, List.filter_cons, h]
        · simp [countFor, List.filter_cons, h])).2.2 (by decide)).2⟩
